import Mathlib

/-!
Verification of the item inventory service (src/item_app).

The embedding below follows `src/item_app/main.py`, `models.py` and
`database.py`.  The handlers `create_item`, `update_item` and `delete_item`
are modelled as pure functions from a store state (plus the request data and
a Boolean oracle saying whether `db.commit()` raises `SQLAlchemyError`) to a
response together with the resulting store state.  The SQLAlchemy session is
modelled by a list of pending changes: `db.add` / attribute assignment /
`db.delete` enqueue a change, `db.commit()` either applies all pending
changes to the durable store or faults, in which case the handler's
`db.rollback()` discards them.
-/

namespace ItemApp

/-- A primitive JSON value as distinguished by the `ItemBase` pydantic model
in `main.py`: the model's fields are `str` or `int` typed. -/
inductive Value where
  | str (s : String)
  | int (n : Int)
deriving DecidableEq, Repr

/-- A candidate payload: the four fields of `ItemBase`, each possibly absent
or carrying either primitive shape.  This is the shape of the decoded JSON
body `json_data` handed to `ItemBase(**json_data)`. -/
structure RawPayload where
  name : Option Value
  description : Option Value
  price : Option Value
  quantity : Option Value
deriving DecidableEq, Repr

/-- The validated shape: pydantic model `ItemBase` of `main.py`
(`name: str, description: str, price: int, quantity: int`). -/
structure ItemBase where
  name : String
  description : String
  price : Int
  quantity : Int
deriving DecidableEq, Repr

/-- Extract a `str`-typed field value; any other shape is a type error. -/
def asStr : Option Value → Option String
  | some (.str s) => some s
  | _ => none

/-- Extract an `int`-typed field value.  Pydantic (lax mode) also coerces a
numeric string to an integer; a missing field or a non-numeric string is a
type error. -/
def asInt : Option Value → Option Int
  | some (.int n) => some n
  | some (.str s) => s.toInt?
  | none => none

/-- `ItemBase(**json_data)`: pydantic validation of a decoded JSON body.
Fails (`ValidationError`) when a required field is missing or has the wrong
primitive type. -/
def itemBaseOfJson (p : RawPayload) : Option ItemBase :=
  match asStr p.name, asStr p.description, asInt p.price, asInt p.quantity with
  | some n, some d, some pr, some q => some ⟨n, d, pr, q⟩
  | _, _, _, _ => none

/-- `ItemBase(name=name, description=description, price=price,
quantity=quantity)` on the form-path parameters of the handlers: each
parameter defaults to `None` (`Form(None)`), and pydantic rejects `None`
for the required fields. -/
def itemBaseOfForm (n d : Option String) (pr q : Option Int) :
    Option ItemBase :=
  match n, d, pr, q with
  | some n, some d, some pr, some q => some ⟨n, d, pr, q⟩
  | _, _, _, _ => none

/-- A persisted row of the `items` table (`models.Item`). -/
structure Item where
  id : Nat
  name : String
  description : String
  price : Int
  quantity : Int
deriving DecidableEq, Repr

/-- The durable store: the `items` table plus the next primary-key value the
store will assign (`id` is an integer primary key, assigned on insert). -/
structure Store where
  items : List Item
  nextId : Nat
deriving DecidableEq, Repr

/-- `db.query(models.Item).filter(models.Item.id == item_id).first()`. -/
def Store.get (s : Store) (id : Nat) : Option Item :=
  s.items.find? (fun it => it.id == id)

/-- A pending change of the current session (transaction): an `INSERT`
queued by `db.add`, an `UPDATE` queued by the attribute assignments of
`update_item`, or a `DELETE` queued by `db.delete`. -/
inductive Change where
  | insert (name description : String) (price quantity : Int)
  | replace (id : Nat) (name description : String) (price quantity : Int)
  | remove (id : Nat)
deriving DecidableEq, Repr

/-- Apply one change to the durable store.  An insert receives the store's
next primary-key value; a replace overwrites the four non-id columns of the
matching row; a remove drops the matching row. -/
def applyChange (s : Store) : Change → Store
  | .insert n d pr q =>
      { items := s.items ++ [⟨s.nextId, n, d, pr, q⟩], nextId := s.nextId + 1 }
  | .replace id n d pr q =>
      { s with items := s.items.map (fun it =>
          if it.id == id then
            { it with name := n, description := d, price := pr, quantity := q }
          else it) }
  | .remove id =>
      { s with items := s.items.filter (fun it => it.id != id) }

def applyChanges (s : Store) (cs : List Change) : Store :=
  cs.foldl applyChange s

/-- `db.commit()`: all pending changes become durable at once, unless the
store faults (`SQLAlchemyError`, modelled by the oracle `fault`), in which
case nothing is persisted. -/
def commit (s : Store) (cs : List Change) (fault : Bool) : Option Store :=
  if fault then none else some (applyChanges s cs)

/-- HTTP responses produced by the handlers: a created/updated record under
`{"status": "success", "item": ...}`, a delete confirmation under
`{"status": "success", "message": ...}`, or an `HTTPException` with a status
code and a detail string. -/
inductive Response where
  | success (item : Item)
  | successMessage (message : String)
  | error (statusCode : Nat) (detail : String)
deriving DecidableEq, Repr

def HTTP_400_BAD_REQUEST : Nat := 400
def HTTP_404_NOT_FOUND : Nat := 404
def HTTP_422_UNPROCESSABLE_ENTITY : Nat := 422
def HTTP_503_SERVICE_UNAVAILABLE : Nat := 503
def HTTP_500_INTERNAL_SERVER_ERROR : Nat := 500

/-- Lines 89-112 of `main.py`: decoder selection and `ItemBase` validation
of `create_item`.  The JSON decoder is chosen exactly when the
`content-type` header equals `application/json`; otherwise the form fields
are validated.  Each path wraps `ValidationError` in its own 422 response. -/
def validate_payload (contentType : Option String) (jsonBody : RawPayload)
    (name description : Option String) (price quantity : Option Int) :
    Except Response ItemBase :=
  if contentType == some "application/json" then
    match itemBaseOfJson jsonBody with
    | some data => .ok data
    | none => .error (.error HTTP_422_UNPROCESSABLE_ENTITY
        "Invalid JSON data format")
  else
    match itemBaseOfForm name description price quantity with
    | some data => .ok data
    | none => .error (.error HTTP_422_UNPROCESSABLE_ENTITY
        "Invalid form data")

/-- Lines 114-136 of `main.py`: the negative-value checks followed by
`db.add`/`db.commit`/`db.refresh`; on `SQLAlchemyError` the handler calls
`db.rollback()` and raises 503. -/
def persist_new_item (db : Store) (data : ItemBase) (fault : Bool) :
    Response × Store :=
  if data.price < 0 then
    (.error HTTP_400_BAD_REQUEST "Price cannot be negative", db)
  else if data.quantity < 0 then
    (.error HTTP_400_BAD_REQUEST "Quantity cannot be negative", db)
  else
    match commit db [.insert data.name data.description data.price
        data.quantity] fault with
    | none => (.error HTTP_503_SERVICE_UNAVAILABLE "Database error occurred",
        db)
    | some db' =>
        (.success ⟨db.nextId, data.name, data.description, data.price,
          data.quantity⟩, db')

/-- `POST /items/` (`create_item`, `main.py` lines 76-152). -/
def create_item (db : Store) (contentType : Option String)
    (jsonBody : RawPayload) (name description : Option String)
    (price quantity : Option Int) (fault : Bool) : Response × Store :=
  match validate_payload contentType jsonBody name description price
      quantity with
  | .error r => (r, db)
  | .ok data => persist_new_item db data fault

/-- Lines 174-189 of `main.py`: `update_item` uses the body-parsed
`Optional[ItemBase]` parameter when present, otherwise validates the form
fields, wrapping `ValidationError` in a 422 `Invalid data format`. -/
def update_validate (item : Option ItemBase)
    (name description : Option String) (price quantity : Option Int) :
    Except Response ItemBase :=
  match item with
  | some d => .ok d
  | none =>
    match itemBaseOfForm name description price quantity with
    | some d => .ok d
    | none => .error (.error HTTP_422_UNPROCESSABLE_ENTITY
        "Invalid data format")

/-- Lines 191-210 of `main.py`: the negative-value checks followed by the
attribute assignments and `db.commit`/`db.refresh`; on `SQLAlchemyError`
the handler calls `db.rollback()` and raises 503. -/
def persist_replacement (db : Store) (item_id : Nat) (data : ItemBase)
    (fault : Bool) : Response × Store :=
  if data.price < 0 then
    (.error HTTP_400_BAD_REQUEST "Price cannot be negative", db)
  else if data.quantity < 0 then
    (.error HTTP_400_BAD_REQUEST "Quantity cannot be negative", db)
  else
    match commit db [.replace item_id data.name data.description
        data.price data.quantity] fault with
    | none => (.error HTTP_503_SERVICE_UNAVAILABLE "Database error occurred",
        db)
    | some db' =>
        (.success ⟨item_id, data.name, data.description, data.price,
          data.quantity⟩, db')

/-- `PUT /items/{item_id}` (`update_item`, `main.py` lines 154-226).  The
existence check on `item_id` comes first, then payload validation, then the
negative-value checks and the replacement. -/
def update_item (db : Store) (item_id : Nat) (item : Option ItemBase)
    (name description : Option String) (price quantity : Option Int)
    (fault : Bool) : Response × Store :=
  match db.get item_id with
  | none => (.error HTTP_404_NOT_FOUND
      ("Item with id " ++ toString item_id ++ " not found"), db)
  | some _ =>
    match update_validate item name description price quantity with
    | .error r => (r, db)
    | .ok data => persist_replacement db item_id data fault

/-- `DELETE /items/{item_id}` (`delete_item`, `main.py` lines 228-263). -/
def delete_item (db : Store) (item_id : Nat) (fault : Bool) :
    Response × Store :=
  match db.get item_id with
  | none => (.error HTTP_404_NOT_FOUND
      ("Item with id " ++ toString item_id ++ " not found"), db)
  | some _ =>
    match commit db [.remove item_id] fault with
    | none => (.error HTTP_503_SERVICE_UNAVAILABLE "Database error occurred",
        db)
    | some db' =>
        (.successMessage ("Item " ++ toString item_id ++
          " deleted successfully"), db')

/-! ## Helper lemmas -/

/-- A freshly inserted row is found by a subsequent lookup of the assigned
id, provided every pre-existing id is below the assigned one. -/
theorem Store.get_insert (db : Store) (n d : String) (pr q : Int)
    (hfresh : ∀ it ∈ db.items, it.id < db.nextId) :
    (applyChange db (.insert n d pr q)).get db.nextId
      = some ⟨db.nextId, n, d, pr, q⟩ := by
  unfold applyChange Store.get
  rw [List.find?_append, List.find?_eq_none.2 (fun it hmem hbeq => by
    exact absurd (by simpa using hbeq) (Nat.ne_of_lt (hfresh it hmem)))]
  simp [List.find?]

/-! ## Claim theorems -/

/-- Claim C1: for every payload with all four fields present, correctly
typed, `price >= 0` and `quantity >= 0`, create succeeds with status
"success" and a record equal to the input with an assigned id `>= 1`, and an
immediately following get of that id returns the same record. -/
theorem create_valid_then_get (db : Store) (jb : RawPayload) (data : ItemBase)
    (hv : itemBaseOfJson jb = some data)
    (hp : 0 ≤ data.price) (hq : 0 ≤ data.quantity)
    (h1 : 1 ≤ db.nextId)
    (hfresh : ∀ it ∈ db.items, it.id < db.nextId) :
    (create_item db (some "application/json") jb none none none none
        false).1
      = .success ⟨db.nextId, data.name, data.description, data.price,
          data.quantity⟩
    ∧ 1 ≤ db.nextId
    ∧ ((create_item db (some "application/json") jb none none none none
          false).2).get db.nextId
        = some ⟨db.nextId, data.name, data.description, data.price,
            data.quantity⟩ := by
  have hrun : create_item db (some "application/json") jb none none none
      none false
      = (.success ⟨db.nextId, data.name, data.description, data.price,
          data.quantity⟩,
         applyChange db (.insert data.name data.description data.price
          data.quantity)) := by
    unfold create_item validate_payload persist_new_item commit applyChanges
    simp [hv, not_lt.2 hp, not_lt.2 hq]
  refine ⟨by rw [hrun], h1, ?_⟩
  rw [hrun]
  exact Store.get_insert db data.name data.description data.price
    data.quantity hfresh

/-- Witness for C1 at the spec's scenario: create
`{name:"Widget", description:"A widget", price:10, quantity:5}` on an empty
store. -/
theorem create_valid_then_get_witness :
    (create_item ⟨[], 1⟩ (some "application/json")
        ⟨some (.str "Widget"), some (.str "A widget"), some (.int 10),
          some (.int 5)⟩ none none none none false).1
      = .success ⟨1, "Widget", "A widget", 10, 5⟩
    ∧ 1 ≤ 1
    ∧ ((create_item ⟨[], 1⟩ (some "application/json")
        ⟨some (.str "Widget"), some (.str "A widget"), some (.int 10),
          some (.int 5)⟩ none none none none false).2).get 1
      = some ⟨1, "Widget", "A widget", 10, 5⟩ :=
  create_valid_then_get ⟨[], 1⟩
    ⟨some (.str "Widget"), some (.str "A widget"), some (.int 10),
      some (.int 5)⟩
    ⟨"Widget", "A widget", 10, 5⟩ rfl (by decide) (by decide) (by decide)
    (by decide)

theorem applyChanges_singleton (s : Store) (c : Change) :
    applyChanges s [c] = applyChange s c := rfl

/-- After removing an id, a lookup of that id finds nothing. -/
theorem Store.get_remove (db : Store) (id : Nat) :
    (applyChange db (.remove id)).get id = none := by
  apply List.find?_eq_none.2
  intro x hx
  have hne := (List.mem_filter.mp hx).2
  simp only [bne_iff_ne, ne_eq] at hne
  simp [hne]

/-- `itemBaseOfJson` fails exactly when one of the four field extractions
fails. -/
theorem itemBaseOfJson_eq_none (p : RawPayload) :
    itemBaseOfJson p = none ↔
      asStr p.name = none ∨ asStr p.description = none
      ∨ asInt p.price = none ∨ asInt p.quantity = none := by
  cases hn : asStr p.name <;> cases hd : asStr p.description <;>
    cases hp : asInt p.price <;> cases hq : asInt p.quantity <;>
    simp [itemBaseOfJson, hn, hd, hp, hq]

/-- `itemBaseOfForm` fails whenever one of the form fields is absent. -/
theorem itemBaseOfForm_eq_none (n d : Option String) (pr q : Option Int)
    (h : n = none ∨ d = none ∨ pr = none ∨ q = none) :
    itemBaseOfForm n d pr q = none := by
  cases n <;> cases d <;> cases pr <;> cases q <;>
    simp_all [itemBaseOfForm]

/-- Claim C2: a payload that validates but has `price < 0` or
`quantity < 0` is rejected with a 400 bad request carrying a descriptive
message (`Price cannot be negative` when `price < 0`), and the store is
unchanged. -/
theorem create_negative_rejected (db : Store) (ct : Option String)
    (jb : RawPayload) (nm ds : Option String) (pr qt : Option Int)
    (fault : Bool) (data : ItemBase)
    (hv : validate_payload ct jb nm ds pr qt = .ok data)
    (hneg : data.price < 0 ∨ data.quantity < 0) :
    ∃ detail, create_item db ct jb nm ds pr qt fault
        = (.error HTTP_400_BAD_REQUEST detail, db)
      ∧ (data.price < 0 → detail = "Price cannot be negative") := by
  have hrun : create_item db ct jb nm ds pr qt fault
      = persist_new_item db data fault := by
    unfold create_item; rw [hv]
  rw [hrun]; unfold persist_new_item
  by_cases hp : data.price < 0
  · exact ⟨"Price cannot be negative", by rw [if_pos hp], fun _ => rfl⟩
  · have hq : data.quantity < 0 := hneg.resolve_left hp
    exact ⟨"Quantity cannot be negative", by rw [if_neg hp, if_pos hq],
      fun h => absurd h hp⟩

/-- Witness for C2 at the spec's scenario: create
`{name:"Bad", description:"x", price:-1, quantity:5}` on an empty store. -/
theorem create_negative_rejected_witness :
    ∃ detail, create_item ⟨[], 1⟩ (some "application/json")
        ⟨some (.str "Bad"), some (.str "x"), some (.int (-1)),
          some (.int 5)⟩ none none none none false
        = (.error HTTP_400_BAD_REQUEST detail, ⟨[], 1⟩)
      ∧ ((ItemBase.mk "Bad" "x" (-1) 5).price < 0 →
          detail = "Price cannot be negative") :=
  create_negative_rejected ⟨[], 1⟩ (some "application/json")
    ⟨some (.str "Bad"), some (.str "x"), some (.int (-1)), some (.int 5)⟩
    none none none none false ⟨"Bad", "x", -1, 5⟩ rfl (Or.inl (by decide))

/-- Claim C3: a payload with a missing or wrong-typed field fails with the
422 unprocessable class (`ValidationError`), regardless of the field
values, so the 400 negative-value check can only fire after type validation
succeeds.  The first part covers the JSON decoder (a missing field, an
integer where a string is required, or a non-numeric string where an
integer is required), the second the form decoder (a missing field). -/
theorem validation_before_negative_check (db : Store) (jb : RawPayload)
    (nm ds : Option String) (pr qt : Option Int) (fault : Bool) :
    ((jb.name = none ∨ (∃ k, jb.name = some (.int k))
      ∨ jb.description = none ∨ (∃ k, jb.description = some (.int k))
      ∨ jb.price = none
      ∨ (∃ x, jb.price = some (.str x) ∧ x.toInt? = none)
      ∨ jb.quantity = none
      ∨ (∃ x, jb.quantity = some (.str x) ∧ x.toInt? = none)) →
      create_item db (some "application/json") jb nm ds pr qt fault
        = (.error HTTP_422_UNPROCESSABLE_ENTITY "Invalid JSON data format",
           db))
    ∧ ((nm = none ∨ ds = none ∨ pr = none ∨ qt = none) →
      create_item db none jb nm ds pr qt fault
        = (.error HTTP_422_UNPROCESSABLE_ENTITY "Invalid form data", db)) := by
  constructor
  · intro h
    have hnone : itemBaseOfJson jb = none := by
      apply (itemBaseOfJson_eq_none jb).2
      rcases h with h | ⟨k, h⟩ | h | ⟨k, h⟩ | h | ⟨x, h, hx⟩ | h | ⟨x, h, hx⟩
      · exact Or.inl (by rw [h]; rfl)
      · exact Or.inl (by rw [h]; rfl)
      · exact Or.inr (Or.inl (by rw [h]; rfl))
      · exact Or.inr (Or.inl (by rw [h]; rfl))
      · exact Or.inr (Or.inr (Or.inl (by rw [h]; rfl)))
      · exact Or.inr (Or.inr (Or.inl (by rw [h]; simp [asInt, hx])))
      · exact Or.inr (Or.inr (Or.inr (by rw [h]; rfl)))
      · exact Or.inr (Or.inr (Or.inr (by rw [h]; simp [asInt, hx])))
    unfold create_item validate_payload
    simp [hnone]
  · intro h
    have hnone := itemBaseOfForm_eq_none nm ds pr qt h
    unfold create_item validate_payload
    simp [hnone]

/-- Witness for C3: a payload whose name is wrong-typed and whose price is
negative yields the 422 type failure, never the 400 negative failure; a
form submission missing its name likewise fails with 422. -/
theorem validation_before_negative_check_witness :
    create_item ⟨[], 1⟩ (some "application/json")
        ⟨some (.int 7), some (.str "x"), some (.int (-5)), some (.int 5)⟩
        none none none none false
      = (.error HTTP_422_UNPROCESSABLE_ENTITY "Invalid JSON data format",
         ⟨[], 1⟩)
    ∧ create_item ⟨[], 1⟩ none
        ⟨some (.int 7), some (.str "x"), some (.int (-5)), some (.int 5)⟩
        none (some "x") (some 1) (some 1) false
      = (.error HTTP_422_UNPROCESSABLE_ENTITY "Invalid form data",
         ⟨[], 1⟩) :=
  ⟨(validation_before_negative_check ⟨[], 1⟩
      ⟨some (.int 7), some (.str "x"), some (.int (-5)), some (.int 5)⟩
      none none none none false).1 (Or.inr (Or.inl ⟨7, rfl⟩)),
   (validation_before_negative_check ⟨[], 1⟩
      ⟨some (.int 7), some (.str "x"), some (.int (-5)), some (.int 5)⟩
      none (some "x") (some 1) (some 1) false).2 (Or.inl rfl)⟩

/-- Claim C4: updating a non-existent id fails with 404 for every payload,
valid or not, and leaves the store unchanged; the existence check precedes
payload validation. -/
theorem update_missing_id_not_found (db : Store) (id : Nat)
    (item : Option ItemBase) (nm ds : Option String) (pr qt : Option Int)
    (fault : Bool) (h : db.get id = none) :
    update_item db id item nm ds pr qt fault
      = (.error HTTP_404_NOT_FOUND
          ("Item with id " ++ toString id ++ " not found"), db) := by
  unfold update_item
  rw [h]

/-- Witness for C4 at the spec's scenario: update id 999 on an empty store
with an invalid (empty form) payload still yields 404. -/
theorem update_missing_id_not_found_witness :
    update_item ⟨[], 1⟩ 999 none none none none none false
      = (.error HTTP_404_NOT_FOUND
          ("Item with id " ++ toString 999 ++ " not found"), ⟨[], 1⟩) :=
  update_missing_id_not_found ⟨[], 1⟩ 999 none none none none none false rfl

/-- Claim C5: deleting a non-existent id fails with 404; deleting an
existing id succeeds with a success confirmation and an immediately
repeated delete of the same id fails with 404. -/
theorem delete_twice_not_found (db : Store) (id : Nat) (fault : Bool) :
    (db.get id = none → delete_item db id fault
        = (.error HTTP_404_NOT_FOUND
            ("Item with id " ++ toString id ++ " not found"), db))
    ∧ (db.get id ≠ none →
        (delete_item db id false).1
          = .successMessage ("Item " ++ toString id ++
              " deleted successfully")
        ∧ (delete_item (delete_item db id false).2 id fault).1
          = .error HTTP_404_NOT_FOUND
              ("Item with id " ++ toString id ++ " not found")) := by
  constructor
  · intro h
    unfold delete_item
    rw [h]
  · intro h
    obtain ⟨it, hit⟩ := Option.ne_none_iff_exists'.mp h
    have h1 : delete_item db id false
        = (.successMessage ("Item " ++ toString id ++
            " deleted successfully"), applyChange db (.remove id)) := by
      unfold delete_item commit
      rw [hit]
      simp [applyChanges_singleton]
    refine ⟨by rw [h1], ?_⟩
    rw [h1]
    unfold delete_item
    rw [Store.get_remove db id]

/-- Witness for C5 at the spec's scenario: delete id 1 twice in sequence on
a store holding item 1. -/
theorem delete_twice_not_found_witness :
    (delete_item ⟨[⟨1, "a", "b", 0, 0⟩], 2⟩ 1 false).1
      = .successMessage ("Item " ++ toString 1 ++ " deleted successfully")
    ∧ (delete_item (delete_item ⟨[⟨1, "a", "b", 0, 0⟩], 2⟩ 1 false).2 1
        false).1
      = .error HTTP_404_NOT_FOUND
          ("Item with id " ++ toString 1 ++ " not found") :=
  (delete_twice_not_found ⟨[⟨1, "a", "b", 0, 0⟩], 2⟩ 1 false).2 (by decide)

/-- The transaction of `create_item` either leaves the store untouched or
applies the single insert in full. -/
theorem persist_new_item_state (db : Store) (d : ItemBase) (fault : Bool) :
    (persist_new_item db d fault).2 = db
    ∨ (0 ≤ d.price ∧ 0 ≤ d.quantity ∧ fault = false
       ∧ (persist_new_item db d fault).2
         = applyChange db (.insert d.name d.description d.price
             d.quantity)) := by
  unfold persist_new_item
  by_cases hp : d.price < 0
  · left; rw [if_pos hp]
  · by_cases hq : d.quantity < 0
    · left; rw [if_neg hp, if_pos hq]
    · cases fault with
      | true => left; rw [if_neg hp, if_neg hq]; rfl
      | false =>
          right
          exact ⟨not_lt.1 hp, not_lt.1 hq, rfl, by
            rw [if_neg hp, if_neg hq]; rfl⟩

/-- On a store fault, `create_item`'s persistence stage rolls back and
surfaces 503. -/
theorem persist_new_item_fault (db : Store) (d : ItemBase)
    (hp : 0 ≤ d.price) (hq : 0 ≤ d.quantity) :
    persist_new_item db d true
      = (.error HTTP_503_SERVICE_UNAVAILABLE "Database error occurred",
         db) := by
  unfold persist_new_item
  rw [if_neg (not_lt.2 hp), if_neg (not_lt.2 hq)]; rfl

/-- The transaction of `update_item` either leaves the store untouched or
applies the single replacement in full. -/
theorem persist_replacement_state (db : Store) (id : Nat) (d : ItemBase)
    (fault : Bool) :
    (persist_replacement db id d fault).2 = db
    ∨ (0 ≤ d.price ∧ 0 ≤ d.quantity ∧ fault = false
       ∧ (persist_replacement db id d fault).2
         = applyChange db (.replace id d.name d.description d.price
             d.quantity)) := by
  unfold persist_replacement
  by_cases hp : d.price < 0
  · left; rw [if_pos hp]
  · by_cases hq : d.quantity < 0
    · left; rw [if_neg hp, if_pos hq]
    · cases fault with
      | true => left; rw [if_neg hp, if_neg hq]; rfl
      | false =>
          right
          exact ⟨not_lt.1 hp, not_lt.1 hq, rfl, by
            rw [if_neg hp, if_neg hq]; rfl⟩

/-- On a store fault, `update_item`'s persistence stage rolls back and
surfaces 503. -/
theorem persist_replacement_fault (db : Store) (id : Nat) (d : ItemBase)
    (hp : 0 ≤ d.price) (hq : 0 ≤ d.quantity) :
    persist_replacement db id d true
      = (.error HTTP_503_SERVICE_UNAVAILABLE "Database error occurred",
         db) := by
  unfold persist_replacement
  rw [if_neg (not_lt.2 hp), if_neg (not_lt.2 hq)]; rfl

/-- The store after `create_item` is the old store or the old store plus
the one inserted row. -/
theorem create_item_state (db : Store) (ct : Option String)
    (jb : RawPayload) (nm ds : Option String) (pr qt : Option Int)
    (fault : Bool) :
    (create_item db ct jb nm ds pr qt fault).2 = db
    ∨ ∃ d : ItemBase, 0 ≤ d.price ∧ 0 ≤ d.quantity
        ∧ (create_item db ct jb nm ds pr qt fault).2
          = applyChange db (.insert d.name d.description d.price
              d.quantity) := by
  unfold create_item
  cases hv : validate_payload ct jb nm ds pr qt with
  | error r => left; rfl
  | ok d =>
    rcases persist_new_item_state db d fault with h | ⟨hp, hq, _, h⟩
    · left; exact h
    · right; exact ⟨d, hp, hq, h⟩

/-- The store after `update_item` is the old store or the old store with
the one replacement applied. -/
theorem update_item_state (db : Store) (id : Nat) (item : Option ItemBase)
    (nm ds : Option String) (pr qt : Option Int) (fault : Bool) :
    (update_item db id item nm ds pr qt fault).2 = db
    ∨ ∃ d : ItemBase, 0 ≤ d.price ∧ 0 ≤ d.quantity
        ∧ (update_item db id item nm ds pr qt fault).2
          = applyChange db (.replace id d.name d.description d.price
              d.quantity) := by
  unfold update_item
  cases hget : db.get id with
  | none => left; rfl
  | some it0 =>
    cases hv : update_validate item nm ds pr qt with
    | error r => left; rfl
    | ok d =>
      rcases persist_replacement_state db id d fault with h | ⟨hp, hq, _, h⟩
      · left; exact h
      · right; exact ⟨d, hp, hq, h⟩

/-- The store after `delete_item` is the old store or the old store with
the one row removed. -/
theorem delete_item_state (db : Store) (id : Nat) (fault : Bool) :
    (delete_item db id fault).2 = db
    ∨ (delete_item db id fault).2 = applyChange db (.remove id) := by
  unfold delete_item
  cases hget : db.get id with
  | none => left; rfl
  | some it0 =>
    cases fault with
    | true => left; rfl
    | false => right; rfl

/-- Claim C6: every mutating operation is atomic — the resulting store is
either the initial store or the initial store with the operation's changes
applied in full — and when the store faults on an otherwise valid
operation the transaction is rolled back (store unchanged) and the failure
surfaces as the 503 service-unavailable response. -/
theorem mutating_ops_rollback (db : Store) (ct : Option String)
    (jb : RawPayload) (nm ds : Option String) (pr qt : Option Int)
    (id : Nat) (item : Option ItemBase) (fault : Bool) (data : ItemBase) :
    ((create_item db ct jb nm ds pr qt fault).2 = db
      ∨ ∃ d : ItemBase, (create_item db ct jb nm ds pr qt fault).2
          = applyChange db (.insert d.name d.description d.price
              d.quantity))
    ∧ ((update_item db id item nm ds pr qt fault).2 = db
      ∨ ∃ d : ItemBase, (update_item db id item nm ds pr qt fault).2
          = applyChange db (.replace id d.name d.description d.price
              d.quantity))
    ∧ ((delete_item db id fault).2 = db
      ∨ (delete_item db id fault).2 = applyChange db (.remove id))
    ∧ (validate_payload ct jb nm ds pr qt = .ok data →
        0 ≤ data.price → 0 ≤ data.quantity →
        create_item db ct jb nm ds pr qt true
          = (.error HTTP_503_SERVICE_UNAVAILABLE "Database error occurred",
             db))
    ∧ (db.get id ≠ none →
        update_validate item nm ds pr qt = .ok data →
        0 ≤ data.price → 0 ≤ data.quantity →
        update_item db id item nm ds pr qt true
          = (.error HTTP_503_SERVICE_UNAVAILABLE "Database error occurred",
             db))
    ∧ (db.get id ≠ none →
        delete_item db id true
          = (.error HTTP_503_SERVICE_UNAVAILABLE "Database error occurred",
             db)) := by
  refine ⟨?_, ?_, ?_, ?_, ?_, ?_⟩
  · rcases create_item_state db ct jb nm ds pr qt fault with h | ⟨d, _, _, h⟩
    · left; exact h
    · right; exact ⟨d, h⟩
  · rcases update_item_state db id item nm ds pr qt fault with
      h | ⟨d, _, _, h⟩
    · left; exact h
    · right; exact ⟨d, h⟩
  · exact delete_item_state db id fault
  · intro hv hp hq
    unfold create_item
    rw [hv]
    exact persist_new_item_fault db data hp hq
  · intro hid hv hp hq
    obtain ⟨it0, hit⟩ := Option.ne_none_iff_exists'.mp hid
    unfold update_item
    rw [hit, hv]
    exact persist_replacement_fault db id data hp hq
  · intro hid
    obtain ⟨it0, hit⟩ := Option.ne_none_iff_exists'.mp hid
    unfold delete_item
    rw [hit]; rfl

/-- Witness for C6: a store fault during a valid create, update and delete
of item 1 rolls each operation back and yields 503. -/
theorem mutating_ops_rollback_witness :
    create_item ⟨[⟨1, "a", "b", 2, 3⟩], 2⟩ (some "application/json")
        ⟨some (.str "n"), some (.str "d"), some (.int 1), some (.int 1)⟩
        none none none none true
      = (.error HTTP_503_SERVICE_UNAVAILABLE "Database error occurred",
         ⟨[⟨1, "a", "b", 2, 3⟩], 2⟩)
    ∧ update_item ⟨[⟨1, "a", "b", 2, 3⟩], 2⟩ 1 (some ⟨"n", "d", 1, 1⟩)
        none none none none true
      = (.error HTTP_503_SERVICE_UNAVAILABLE "Database error occurred",
         ⟨[⟨1, "a", "b", 2, 3⟩], 2⟩)
    ∧ delete_item ⟨[⟨1, "a", "b", 2, 3⟩], 2⟩ 1 true
      = (.error HTTP_503_SERVICE_UNAVAILABLE "Database error occurred",
         ⟨[⟨1, "a", "b", 2, 3⟩], 2⟩) :=
  have h := mutating_ops_rollback ⟨[⟨1, "a", "b", 2, 3⟩], 2⟩
    (some "application/json")
    ⟨some (.str "n"), some (.str "d"), some (.int 1), some (.int 1)⟩
    none none none none 1 (some ⟨"n", "d", 1, 1⟩) true ⟨"n", "d", 1, 1⟩
  ⟨h.2.2.2.1 rfl (by decide) (by decide),
   h.2.2.2.2.1 (by decide) rfl (by decide) (by decide),
   h.2.2.2.2.2 (by decide)⟩

/-- The non-negativity invariant of the data model: every persisted row has
`price >= 0` and `quantity >= 0`. -/
def Store.inv (s : Store) : Prop :=
  ∀ it ∈ s.items, 0 ≤ it.price ∧ 0 ≤ it.quantity

/-- Inserting a row with non-negative price and quantity preserves the
invariant. -/
theorem inv_insert (db : Store) (hinv : db.inv) (n d : String) (p q : Int)
    (hp : 0 ≤ p) (hq : 0 ≤ q) : (applyChange db (.insert n d p q)).inv := by
  intro it hit
  simp only [applyChange] at hit
  rcases List.mem_append.mp hit with h | h
  · exact hinv it h
  · rw [List.mem_singleton.mp h]
    exact ⟨hp, hq⟩

/-- Replacing a row's fields by non-negative price and quantity preserves
the invariant. -/
theorem inv_replace (db : Store) (hinv : db.inv) (id : Nat) (n d : String)
    (p q : Int) (hp : 0 ≤ p) (hq : 0 ≤ q) :
    (applyChange db (.replace id n d p q)).inv := by
  intro it hit
  simp only [applyChange] at hit
  obtain ⟨x, hx, hmap⟩ := List.mem_map.mp hit
  by_cases hid : (x.id == id) = true
  · rw [if_pos hid] at hmap
    rw [← hmap]
    exact ⟨hp, hq⟩
  · rw [if_neg hid] at hmap
    rw [← hmap]
    exact hinv x hx

/-- Removing a row preserves the invariant. -/
theorem inv_remove (db : Store) (hinv : db.inv) (id : Nat) :
    (applyChange db (.remove id)).inv := by
  intro it hit
  exact hinv it (List.mem_filter.mp hit).1

/-- Claim C7: starting from a store in which every record satisfies
`price >= 0` and `quantity >= 0`, each public operation (create, update,
delete) preserves the invariant, whatever its input and whether or not the
store faults. -/
theorem ops_preserve_nonneg (db : Store) (ct : Option String)
    (jb : RawPayload) (nm ds : Option String) (pr qt : Option Int)
    (id : Nat) (item : Option ItemBase) (fault : Bool) (hinv : db.inv) :
    ((create_item db ct jb nm ds pr qt fault).2).inv
    ∧ ((update_item db id item nm ds pr qt fault).2).inv
    ∧ ((delete_item db id fault).2).inv := by
  refine ⟨?_, ?_, ?_⟩
  · rcases create_item_state db ct jb nm ds pr qt fault with
      h | ⟨d, hp, hq, h⟩
    · rw [h]; exact hinv
    · rw [h]; exact inv_insert db hinv _ _ _ _ hp hq
  · rcases update_item_state db id item nm ds pr qt fault with
      h | ⟨d, hp, hq, h⟩
    · rw [h]; exact hinv
    · rw [h]; exact inv_replace db hinv id _ _ _ _ hp hq
  · rcases delete_item_state db id fault with h | h
    · rw [h]; exact hinv
    · rw [h]; exact inv_remove db hinv id

/-- Witness for C7: the invariant holds after a create, an update and a
delete on a store holding one invariant-satisfying record. -/
theorem ops_preserve_nonneg_witness :
    ((create_item ⟨[⟨1, "a", "b", 2, 3⟩], 2⟩ (some "application/json")
        ⟨some (.str "n"), some (.str "d"), some (.int 1), some (.int 1)⟩
        none none none none false).2).inv
    ∧ ((update_item ⟨[⟨1, "a", "b", 2, 3⟩], 2⟩ 1 (some ⟨"n", "d", 1, 1⟩)
        none none none none false).2).inv
    ∧ ((delete_item ⟨[⟨1, "a", "b", 2, 3⟩], 2⟩ 1 false).2).inv :=
  ops_preserve_nonneg ⟨[⟨1, "a", "b", 2, 3⟩], 2⟩ (some "application/json")
    ⟨some (.str "n"), some (.str "d"), some (.int 1), some (.int 1)⟩
    none none none none 1 (some ⟨"n", "d", 1, 1⟩) false
    (fun it hit => by
      rw [List.mem_singleton.mp hit]
      exact ⟨by decide, by decide⟩)

/-- An abstract item payload: the four field values, each possibly absent,
used to compare the two request encodings of the same values. -/
structure FieldValues where
  name : Option String
  description : Option String
  price : Option Int
  quantity : Option Int
deriving DecidableEq, Repr

/-- The structured JSON body carrying the field values of `a`. -/
def toJsonBody (a : FieldValues) : RawPayload :=
  ⟨a.name.map .str, a.description.map .str, a.price.map .int,
   a.quantity.map .int⟩

/-- Counterexample to C8 as stated: the same field values (name absent,
description `x`, price 1, quantity 1) submitted as a JSON body and as a
form body produce different outcomes — the two 422 responses carry
different detail strings. -/
theorem dual_encoding_counterexample :
    (create_item ⟨[], 1⟩ (some "application/json")
        ⟨none, some (.str "x"), some (.int 1), some (.int 1)⟩
        none none none none false).1
      = .error HTTP_422_UNPROCESSABLE_ENTITY "Invalid JSON data format"
    ∧ (create_item ⟨[], 1⟩ none
        ⟨none, some (.str "x"), some (.int 1), some (.int 1)⟩
        none (some "x") (some 1) (some 1) false).1
      = .error HTTP_422_UNPROCESSABLE_ENTITY "Invalid form data"
    ∧ (Response.error HTTP_422_UNPROCESSABLE_ENTITY "Invalid JSON data format"
        ≠ Response.error HTTP_422_UNPROCESSABLE_ENTITY "Invalid form data") :=
  ⟨rfl, rfl, by decide⟩

/-- Claim C8 as amended: for every payload, the JSON encoding and the form
encoding of the same field values normalize to the same validated shape and
produce the same outcome up to the validation-failure detail string — the
same resulting store, and either identical responses or a 422 response on
both paths whose details are `Invalid JSON data format` and
`Invalid form data` respectively. -/
theorem dual_encoding_agree (db : Store) (a : FieldValues) (fault : Bool) :
    itemBaseOfJson (toJsonBody a)
      = itemBaseOfForm a.name a.description a.price a.quantity
    ∧ (create_item db (some "application/json") (toJsonBody a) a.name
        a.description a.price a.quantity fault).2
      = (create_item db none (toJsonBody a) a.name a.description a.price
          a.quantity fault).2
    ∧ ((create_item db (some "application/json") (toJsonBody a) a.name
          a.description a.price a.quantity fault).1
        = (create_item db none (toJsonBody a) a.name a.description a.price
            a.quantity fault).1
      ∨ ((create_item db (some "application/json") (toJsonBody a) a.name
            a.description a.price a.quantity fault).1
          = .error HTTP_422_UNPROCESSABLE_ENTITY "Invalid JSON data format"
        ∧ (create_item db none (toJsonBody a) a.name a.description a.price
            a.quantity fault).1
          = .error HTTP_422_UNPROCESSABLE_ENTITY "Invalid form data")) := by
  obtain ⟨n, d, p, q⟩ := a
  have heq : itemBaseOfJson (toJsonBody ⟨n, d, p, q⟩)
      = itemBaseOfForm n d p q := by
    cases n <;> cases d <;> cases p <;> cases q <;>
      simp [itemBaseOfJson, itemBaseOfForm, toJsonBody, asStr, asInt]
  refine ⟨heq, ?_⟩
  cases hv : itemBaseOfForm n d p q with
  | none =>
    have h1 : create_item db (some "application/json") (toJsonBody ⟨n, d, p, q⟩)
        n d p q fault
        = (.error HTTP_422_UNPROCESSABLE_ENTITY "Invalid JSON data format",
           db) := by
      unfold create_item validate_payload
      simp [heq, hv]
    have h2 : create_item db none (toJsonBody ⟨n, d, p, q⟩) n d p q fault
        = (.error HTTP_422_UNPROCESSABLE_ENTITY "Invalid form data", db) := by
      unfold create_item validate_payload
      simp [hv]
    rw [h1, h2]
    exact ⟨rfl, Or.inr ⟨rfl, rfl⟩⟩
  | some dd =>
    have h1 : create_item db (some "application/json") (toJsonBody ⟨n, d, p, q⟩)
        n d p q fault = persist_new_item db dd fault := by
      unfold create_item validate_payload
      simp [heq, hv]
    have h2 : create_item db none (toJsonBody ⟨n, d, p, q⟩) n d p q fault
        = persist_new_item db dd fault := by
      unfold create_item validate_payload
      simp [hv]
    rw [h1, h2]
    exact ⟨rfl, Or.inl rfl⟩

/-- Claim C9: a successful update overwrites exactly the four mutable
fields of the targeted record, leaves every id unchanged, and returns the
record under the target id. -/
theorem update_overwrites_fields_only (db : Store) (id : Nat)
    (data : ItemBase) (old : Item) (hget : db.get id = some old)
    (hp : 0 ≤ data.price) (hq : 0 ≤ data.quantity) :
    (update_item db id (some data) none none none none false).1
      = .success ⟨id, data.name, data.description, data.price,
          data.quantity⟩
    ∧ (update_item db id (some data) none none none none false).2
      = { db with items := db.items.map (fun it =>
          if it.id == id then
            { it with
                name := data.name,
                description := data.description,
                price := data.price,
                quantity := data.quantity }
          else it) }
    ∧ ((update_item db id (some data) none none none none false).2).items.map
        Item.id = db.items.map Item.id := by
  have hrun : update_item db id (some data) none none none none false
      = (.success ⟨id, data.name, data.description, data.price,
          data.quantity⟩,
         applyChange db (.replace id data.name data.description data.price
          data.quantity)) := by
    unfold update_item update_validate persist_replacement commit
      applyChanges
    simp [hget, not_lt.2 hp, not_lt.2 hq]
  refine ⟨by rw [hrun], by rw [hrun]; rfl, ?_⟩
  rw [hrun]
  show (db.items.map _).map Item.id = db.items.map Item.id
  rw [List.map_map]
  apply List.map_congr_left
  intro a _
  by_cases h : (a.id == id) = true
  · simp [Function.comp, h]
  · simp [Function.comp, h]

/-- Witness for C9: update item 1 of a two-item store with a valid
payload. -/
theorem update_overwrites_fields_only_witness :
    (update_item ⟨[⟨1, "a", "b", 2, 3⟩, ⟨2, "c", "e", 4, 5⟩], 3⟩ 1
        (some ⟨"n", "d", 7, 8⟩) none none none none false).1
      = .success ⟨1, "n", "d", 7, 8⟩
    ∧ (update_item ⟨[⟨1, "a", "b", 2, 3⟩, ⟨2, "c", "e", 4, 5⟩], 3⟩ 1
        (some ⟨"n", "d", 7, 8⟩) none none none none false).2
      = { items := [⟨1, "a", "b", 2, 3⟩, ⟨2, "c", "e", 4, 5⟩].map
            (fun it => if it.id == 1 then
              { it with
                  name := "n",
                  description := "d",
                  price := 7,
                  quantity := 8 }
            else it),
          nextId := 3 }
    ∧ ((update_item ⟨[⟨1, "a", "b", 2, 3⟩, ⟨2, "c", "e", 4, 5⟩], 3⟩ 1
        (some ⟨"n", "d", 7, 8⟩) none none none none false).2).items.map
          Item.id
      = [⟨1, "a", "b", 2, 3⟩, ⟨2, "c", "e", 4, 5⟩].map Item.id :=
  update_overwrites_fields_only
    ⟨[⟨1, "a", "b", 2, 3⟩, ⟨2, "c", "e", 4, 5⟩], 3⟩ 1 ⟨"n", "d", 7, 8⟩
    ⟨1, "a", "b", 2, 3⟩ (by decide) (by decide) (by decide)

/-- Claim C10: the JSON decoder is selected exactly when the content-type
header is the exact string `application/json`; under any other header value
a request carrying a valid JSON body is validated from the absent form
fields and rejected with the form-path 422. -/
theorem content_type_exact_match (db : Store) (jb : RawPayload)
    (data : ItemBase) (ct : Option String)
    (hv : itemBaseOfJson jb = some data) (hp : 0 ≤ data.price)
    (hq : 0 ≤ data.quantity) :
    (create_item db (some "application/json") jb none none none none
        false).1
      = .success ⟨db.nextId, data.name, data.description, data.price,
          data.quantity⟩
    ∧ (ct ≠ some "application/json" →
        create_item db ct jb none none none none false
          = (.error HTTP_422_UNPROCESSABLE_ENTITY "Invalid form data",
             db)) := by
  constructor
  · have hrun : create_item db (some "application/json") jb none none none
        none false = persist_new_item db data false := by
      unfold create_item validate_payload
      simp [hv]
    rw [hrun]
    unfold persist_new_item
    rw [if_neg (not_lt.2 hp), if_neg (not_lt.2 hq)]
    rfl
  · intro hne
    have hbeq : (ct == some "application/json") = false :=
      beq_eq_false_iff_ne.2 hne
    unfold create_item validate_payload
    simp [hbeq, itemBaseOfForm]

/-- Witness for C10: a valid JSON body under the header
`application/json; charset=utf-8` is rejected with the form-path 422,
while the exact header `application/json` creates the item. -/
theorem content_type_exact_match_witness :
    (create_item ⟨[], 1⟩ (some "application/json")
        ⟨some (.str "Widget"), some (.str "A widget"), some (.int 10),
          some (.int 5)⟩ none none none none false).1
      = .success ⟨1, "Widget", "A widget", 10, 5⟩
    ∧ (some "application/json; charset=utf-8" ≠ some "application/json" →
        create_item ⟨[], 1⟩ (some "application/json; charset=utf-8")
          ⟨some (.str "Widget"), some (.str "A widget"), some (.int 10),
            some (.int 5)⟩ none none none none false
          = (.error HTTP_422_UNPROCESSABLE_ENTITY "Invalid form data",
             ⟨[], 1⟩)) :=
  content_type_exact_match ⟨[], 1⟩
    ⟨some (.str "Widget"), some (.str "A widget"), some (.int 10),
      some (.int 5)⟩
    ⟨"Widget", "A widget", 10, 5⟩ (some "application/json; charset=utf-8")
    rfl (by decide) (by decide)

end ItemApp
